import Mathlib

/-!
Verification of the identifier-resolution and query-construction layer of the
servicenow-mcp tool modules.

The HTTP backend is modelled as an oracle: a function from the query a tool
issues to the parsed outcome of that call.  Each resolver is translated from
its Python source together with the ordered trace of the table queries it
issues, so that properties about call counts and lookup order are statements
about the trace.  Query construction is translated as pure functions from the
tools' parameter objects to the sysparm_query strings they send.
-/

/-- A GET against a ServiceNow table as issued by the resolver helpers: the
    target table together with the sysparm_query and sysparm_limit
    parameters of the call. -/
structure TableQuery where
  table : String
  sysparm_query : String
  sysparm_limit : String
deriving DecidableEq, Repr

/-- One record of a ServiceNow JSON result list.  The resolvers read only the
    sys_id key, and reading a missing key yields none (Python dict.get). -/
structure SnRecord where
  sys_id : Option String
deriving DecidableEq, Repr

/-- Outcome of one lookup call: a transport failure
    (requests.RequestException, including the raise_for_status check), or the
    parsed result list of the response body. -/
inductive FetchResult where
  | transportError (msg : String)
  | ok (records : List SnRecord)
deriving DecidableEq, Repr

/-- The HTTP backend as seen by a resolver: an outcome for every query. -/
def Fetch : Type := TableQuery → FetchResult

/-- True when a lookup outcome is treated as a non-match by the resolver
    loop: a transport error or an empty result list. -/
def isNonMatch : FetchResult → Bool
  | FetchResult.ok (_ :: _) => false
  | _ => true

/-- Python truthiness of an Optional[str]: None and the empty string are
    falsy, every other string truthy. -/
def truthyStr : Option String → Bool
  | none => false
  | some s => !(s == "")

/-- Python truthiness of an Optional[List[str]]: None and the empty list are
    falsy. -/
def truthyList : Option (List String) → Bool
  | none => false
  | some l => !l.isEmpty

/-- The shared lookup loop of the resolvers (request_tools.py lines 87-110,
    127-150; record_tools.py lines 132-155): try each candidate field in
    order with sysparm_limit 1; a transport error or an empty result list
    moves on to the next candidate; a non-empty result list returns its
    first record's sys_id at once.  Returns the outcome together with the
    queries issued, in order. -/
def tryFields (fetch : Fetch) (table : String) (mkQuery : String → String) :
    List String → Option String × List TableQuery
  | [] => (none, [])
  | field :: rest =>
    let q : TableQuery := ⟨table, mkQuery field, "1"⟩
    match fetch q with
    | FetchResult.ok (r :: _) => (r.sys_id, [q])
    | _ =>
      let next := tryFields fetch table mkQuery rest
      (next.1, q :: next.2)

/-- The character class of the sys_id fast path in request_tools.py
    (lines 81 and 121): lowercase hexadecimal only. -/
def lowercaseHexChars : List Char := "0123456789abcdef".toList

/-- The character class of the sys_id fast path in record_tools.py
    (line 126): hexadecimal in either case. -/
def mixedHexChars : List Char := "0123456789abcdefABCDEF".toList

/-- The fast-path guard of the request_tools resolvers: length 32 and every
    character lowercase hexadecimal. -/
def isLowerSysId (s : String) : Bool :=
  s.length == 32 && s.toList.all (fun c => lowercaseHexChars.contains c)

/-- The fast-path guard of the record_tools user resolver: length 32 and
    every character hexadecimal in either case. -/
def isMixedSysId (s : String) : Bool :=
  s.length == 32 && s.toList.all (fun c => mixedHexChars.contains c)

namespace request_tools

/-- request_tools._resolve_user_id: lowercase-hex fast path, then user_name
    and email lookups against the sys_user table. -/
def _resolve_user_id (fetch : Fetch) (user_identifier : String) :
    Option String × List TableQuery :=
  if isLowerSysId user_identifier then
    (some user_identifier, [])
  else
    tryFields fetch "sys_user" (fun field => field ++ "=" ++ user_identifier)
      ["user_name", "email"]

/-- request_tools._resolve_catalog_item_id: lowercase-hex fast path, then
    name, sys_id and short_description lookups against sc_cat_item; the
    short_description candidate uses a LIKE match, the others exact. -/
def _resolve_catalog_item_id (fetch : Fetch) (catalog_item_identifier : String) :
    Option String × List TableQuery :=
  if isLowerSysId catalog_item_identifier then
    (some catalog_item_identifier, [])
  else
    tryFields fetch "sc_cat_item"
      (fun field =>
        if field != "short_description" then field ++ "=" ++ catalog_item_identifier
        else field ++ "LIKE" ++ catalog_item_identifier)
      ["name", "sys_id", "short_description"]

end request_tools

namespace record_tools

/-- record_tools._resolve_user_id: identical to the request_tools user
    resolver except that the fast path accepts hexadecimal of either case. -/
def _resolve_user_id (fetch : Fetch) (user_identifier : String) :
    Option String × List TableQuery :=
  if isMixedSysId user_identifier then
    (some user_identifier, [])
  else
    tryFields fetch "sys_user" (fun field => field ++ "=" ++ user_identifier)
      ["user_name", "email"]

end record_tools

/-- The ordered candidate queries of a user resolution, as both user
    resolvers issue them: user_name first, then email, each limited to one
    result. -/
def userCandidates (s : String) : List TableQuery :=
  [⟨"sys_user", "user_name=" ++ s, "1"⟩, ⟨"sys_user", "email=" ++ s, "1"⟩]

/-- The ordered candidate queries of a catalog-item resolution: name, then
    sys_id, then a short_description LIKE match, each limited to one
    result. -/
def catalogCandidates (s : String) : List TableQuery :=
  [⟨"sc_cat_item", "name=" ++ s, "1"⟩, ⟨"sc_cat_item", "sys_id=" ++ s, "1"⟩,
   ⟨"sc_cat_item", "short_descriptionLIKE" ++ s, "1"⟩]

/-- Specification-side resolver, following the spec text: return the
    canonical identifier carried by the first candidate lookup whose result
    list is non-empty. -/
def specFirstMatch (fetch : Fetch) : List TableQuery → Option String
  | [] => none
  | q :: rest =>
    match fetch q with
    | FetchResult.ok (r :: _) => r.sys_id
    | _ => specFirstMatch fetch rest

/-- Specification-side trace: the candidate lookups actually issued, which
    are all candidates up to and including the first one with a non-empty
    result list. -/
def specTrace (fetch : Fetch) : List TableQuery → List TableQuery
  | [] => []
  | q :: rest =>
    match fetch q with
    | FetchResult.ok (_ :: _) => [q]
    | _ => q :: specTrace fetch rest

/-- A backend that answers every lookup with an empty result list. -/
def emptyFetch : Fetch := fun _ => FetchResult.ok []

example : request_tools._resolve_user_id emptyFetch "0123456789abcdef0123456789abcdef"
    = (some "0123456789abcdef0123456789abcdef", []) := by decide

example : (request_tools._resolve_user_id emptyFetch "jdoe").2.length = 2 := by decide

example : record_tools._resolve_user_id emptyFetch "0123456789ABCDEF0123456789abcdef"
    = (some "0123456789ABCDEF0123456789abcdef", []) := by decide

/-- The JSON result object of a single-record response.  Only these keys are
    read by the embedded operations; an absent key reads as none. -/
structure ResultObj where
  sys_id : Option String := none
  number : Option String := none
  asset_tag : Option String := none
  name : Option String := none
  price : Option String := none
  recurring_price : Option String := none
deriving DecidableEq, Repr

/-- Outcome of a record-returning POST/GET: a transport failure or the parsed
    result object of the response. -/
inductive PostOutcome where
  | transportError (msg : String)
  | ok (result : ResultObj)
deriving DecidableEq, Repr

/-- Outcome of a list GET: a transport failure or the parsed result list. -/
inductive ListOutcome where
  | transportError (msg : String)
  | ok (result : List ResultObj)
deriving DecidableEq, Repr

/-- Uniform shape of a list operation's reply, keeping the fields the claims
    are about: the success flag, the message, and the result count. -/
structure ListResult where
  success : Bool
  message : String
  count : Nat
deriving DecidableEq, Repr

/-- A request payload key present only when its optional value is truthy
    (the repeated `if params.x: data["x"] = params.x` pattern).  Payloads are
    modelled as association lists in insertion order. -/
def optField (key : String) (v : Option String) : List (String × String) :=
  if truthyStr v then [(key, v.getD "")] else []

namespace request_tools

/-- Parameters of list_item_requests. -/
structure ListItemRequestsParams where
  limit : Int := 10
  offset : Int := 0
  requested_for : Option String := none
  cat_item : Option String := none
  number : Option String := none
  short_description : Option String := none

/-- The query_parts list built by list_item_requests (lines 169-191): a
    requested_for clause using the resolved user id when resolution
    succeeds and falling back to the raw input otherwise, the same for
    cat_item, then exact number and short_description LIKE clauses. -/
def list_item_requests_query_parts (fetch : Fetch)
    (params : ListItemRequestsParams) : List String :=
  (if truthyStr params.requested_for then
     let s := params.requested_for.getD ""
     let user_id := (_resolve_user_id fetch s).1
     if truthyStr user_id then ["requested_for=" ++ user_id.getD ""]
     else ["requested_for=" ++ s]
   else []) ++
  (if truthyStr params.cat_item then
     let s := params.cat_item.getD ""
     let catalog_item_id := (_resolve_catalog_item_id fetch s).1
     if truthyStr catalog_item_id then ["cat_item=" ++ catalog_item_id.getD ""]
     else ["cat_item=" ++ s]
   else []) ++
  (if truthyStr params.number then ["number=" ++ params.number.getD ""] else []) ++
  (if truthyStr params.short_description then
     ["short_descriptionLIKE" ++ params.short_description.getD ""]
   else [])

/-- The sysparm_query sent by list_item_requests: present exactly when some
    clause was built, the parts joined with the ^ separator. -/
def list_item_requests_sysparm_query (fetch : Fetch)
    (params : ListItemRequestsParams) : Option String :=
  let parts := list_item_requests_query_parts fetch params
  if parts.isEmpty then none else some (String.intercalate "^" parts)

end request_tools

namespace asset_tools

/-!
asset_tools.py imports resolve_user_id and resolve_asset_id from
servicenow_mcp.utils.resolvers, a module that is not among the sources at
hand.  The operations below are therefore parameterized by the resolution
outcome `resolve_user_id : String → Option String`; every theorem about them
quantifies over that function, so nothing is assumed about the missing
resolver beyond its signature.
-/

/-- Parameters of list_hardware_assets. -/
structure ListHardwareAssetsParams where
  limit : Int := 10
  offset : Int := 0
  assigned_to : Option String := none
  name : Option String := none
  query : Option String := none

/-- The query_parts list built by list_hardware_assets (lines 147-160): an
    assigned_to clause using the resolved id or falling back to the raw
    input, a display_name LIKE clause, and the multi-field OR search clause
    - written in the source with a leading ^ before its first field. -/
def list_hardware_assets_query_parts (resolve_user_id : String → Option String)
    (params : ListHardwareAssetsParams) : List String :=
  (if truthyStr params.assigned_to then
     let s := params.assigned_to.getD ""
     let user_id := resolve_user_id s
     if truthyStr user_id then ["assigned_to=" ++ user_id.getD ""]
     else ["assigned_to=" ++ s]
   else []) ++
  (if truthyStr params.name then ["display_nameLIKE" ++ params.name.getD ""] else []) ++
  (if truthyStr params.query then
     let q := params.query.getD ""
     ["^asset_tagLIKE" ++ q ++ "^ORdisplay_nameLIKE" ++ q ++ "^ORserial_numberLIKE" ++ q
       ++ "^ORmodelLIKE" ++ q]
   else [])

/-- The sysparm_query sent by list_hardware_assets. -/
def list_hardware_assets_sysparm_query (resolve_user_id : String → Option String)
    (params : ListHardwareAssetsParams) : Option String :=
  let parts := list_hardware_assets_query_parts resolve_user_id params
  if parts.isEmpty then none else some (String.intercalate "^" parts)

/-- list_hardware_assets in full: build the query, issue the GET, reshape
    the reply; a transport failure becomes a success=false record.  The
    second component is the sysparm_query the GET was issued with. -/
def list_hardware_assets (resolve_user_id : String → Option String)
    (get : Option String → ListOutcome) (params : ListHardwareAssetsParams) :
    ListResult × Option String :=
  let sq := list_hardware_assets_sysparm_query resolve_user_id params
  (match get sq with
   | ListOutcome.ok result =>
     ⟨true, "Found " ++ toString result.length ++ " hardware assets", result.length⟩
   | ListOutcome.transportError msg =>
     ⟨false, "Failed to list hardware assets: " ++ msg, 0⟩, sq)

/-- Parameters of list_assets. -/
structure ListAssetsParams where
  limit : Int := 100
  offset : Int := 0
  assigned_to : Option (List String) := none
  location : Option String := none
  name : Option String := none
  query : Option String := none

/-- The user_ids list built inside list_assets (lines 454-458): the
    resolution outcome of each assigned_to entry, keeping only truthy
    results - entries that fail to resolve are dropped. -/
def resolvedUserIds (resolve_user_id : String → Option String)
    (users : List String) : List String :=
  users.filterMap (fun user =>
    let user_id := resolve_user_id user
    if truthyStr user_id then some (user_id.getD "") else none)

/-- The query_parts list built by list_assets (lines 451-470): the
    assigned_toIN membership clause (appended whenever the parameter list is
    truthy, however many entries resolved), an exact location clause, a
    display_name LIKE clause, and the five-field OR search clause with its
    leading ^. -/
def list_assets_query_parts (resolve_user_id : String → Option String)
    (params : ListAssetsParams) : List String :=
  (if truthyList params.assigned_to then
     ["assigned_toIN" ++
       String.intercalate "," (resolvedUserIds resolve_user_id (params.assigned_to.getD []))]
   else []) ++
  (if truthyStr params.location then ["location=" ++ params.location.getD ""] else []) ++
  (if truthyStr params.name then ["display_nameLIKE" ++ params.name.getD ""] else []) ++
  (if truthyStr params.query then
     let q := params.query.getD ""
     ["^asset_tagLIKE" ++ q ++ "^ORdisplay_nameLIKE" ++ q ++ "^ORserial_numberLIKE" ++ q
       ++ "^ORmodelLIKE" ++ q ++ "^ORshort_descriptionLIKE" ++ q]
   else [])

/-- The sysparm_query sent by list_assets. -/
def list_assets_sysparm_query (resolve_user_id : String → Option String)
    (params : ListAssetsParams) : Option String :=
  let parts := list_assets_query_parts resolve_user_id params
  if parts.isEmpty then none else some (String.intercalate "^" parts)

/-- list_assets in full: build the query, issue the GET, reshape the reply;
    a transport failure becomes a success=false record. -/
def list_assets (resolve_user_id : String → Option String)
    (get : Option String → ListOutcome) (params : ListAssetsParams) :
    ListResult × Option String :=
  let sq := list_assets_sysparm_query resolve_user_id params
  (match get sq with
   | ListOutcome.ok result =>
     ⟨true, "Found " ++ toString result.length ++ " assets", result.length⟩
   | ListOutcome.transportError msg =>
     ⟨false, "Failed to list assets: " ++ msg, 0⟩, sq)

/-- Parameters of create_asset. -/
structure CreateAssetParams where
  asset_tag : String
  display_name : String
  model : Option String := none
  serial_number : Option String := none
  assigned_to : Option String := none
  location : Option String := none
  cost : Option String := none
  purchase_date : Option String := none
  warranty_expiration : Option String := none
  category : Option String := none
  subcategory : Option String := none
  manufacturer : Option String := none
  model_category : Option String := none
  state : Option String := some "1"
  substatus : Option String := none
  comments : Option String := none

/-- Response shape of the asset operations. -/
structure AssetResponse where
  success : Bool
  message : String
  asset_id : Option String := none
  asset_tag : Option String := none
deriving DecidableEq, Repr

/-- The POST of create_asset with its boundary handler (lines 253-277): a
    transport failure is converted into a success=false response.  The
    second component is the list of payloads actually POSTed. -/
def create_asset_post (post : List (String × String) → PostOutcome)
    (data : List (String × String)) :
    AssetResponse × List (List (String × String)) :=
  match post data with
  | PostOutcome.ok result =>
    (⟨true, "Asset created successfully", result.sys_id, result.asset_tag⟩, [data])
  | PostOutcome.transportError msg =>
    (⟨false, "Failed to create asset: " ++ msg, none, none⟩, [data])

/-- create_asset (lines 192-277): build the payload in source order; when
    assigned_to is given and fails to resolve, return a descriptive
    failure without issuing the POST. -/
def create_asset (resolve_user_id : String → Option String)
    (post : List (String × String) → PostOutcome) (params : CreateAssetParams) :
    AssetResponse × List (List (String × String)) :=
  let data1 := [("asset_tag", params.asset_tag), ("display_name", params.display_name)]
    ++ optField "model" params.model ++ optField "serial_number" params.serial_number
  let tail := optField "location" params.location ++ optField "cost" params.cost
    ++ optField "purchase_date" params.purchase_date
    ++ optField "warranty_expiration" params.warranty_expiration
    ++ optField "category" params.category ++ optField "subcategory" params.subcategory
    ++ optField "manufacturer" params.manufacturer
    ++ optField "model_category" params.model_category ++ optField "state" params.state
    ++ optField "substatus" params.substatus ++ optField "comments" params.comments
  if truthyStr params.assigned_to then
    let s := params.assigned_to.getD ""
    let user_id := resolve_user_id s
    if truthyStr user_id then
      create_asset_post post (data1 ++ [("assigned_to", user_id.getD "")] ++ tail)
    else
      (⟨false, "Could not resolve user: " ++ s, none, none⟩, [])
  else
    create_asset_post post (data1 ++ tail)

end asset_tools

namespace knowledge_base

/-- Parameters of list_knowledge_bases. -/
structure ListKnowledgeBasesParams where
  limit : Int := 10
  offset : Int := 0
  active : Option Bool := none
  query : Option String := none

/-- Python str(bool).lower(). -/
def pyBoolLower : Bool → String
  | true => "true"
  | false => "false"

/-- The query_parts list built by list_knowledge_bases (lines 261-265): an
    active flag clause when the parameter is not None, and the title/
    description OR search clause - written without any leading separator. -/
def list_knowledge_bases_query_parts (params : ListKnowledgeBasesParams) :
    List String :=
  (match params.active with
   | some b => ["active=" ++ pyBoolLower b]
   | none => []) ++
  (if truthyStr params.query then
     let q := params.query.getD ""
     ["titleLIKE" ++ q ++ "^ORdescriptionLIKE" ++ q]
   else [])

/-- The sysparm_query sent by list_knowledge_bases. -/
def list_knowledge_bases_sysparm_query (params : ListKnowledgeBasesParams) :
    Option String :=
  let parts := list_knowledge_bases_query_parts params
  if parts.isEmpty then none else some (String.intercalate "^" parts)

end knowledge_base

namespace record_tools

/-- Parameters of create_problem. -/
structure CreateProblemParams where
  short_description : String
  urgency : Option String := some "3"
  impact : Option String := some "3"
  assigned_to : Option String := none
  fields : Option (List (String × String)) := none

/-- Response shape of the problem operations. -/
structure ProblemResponse where
  success : Bool
  message : String
  problem_id : Option String := none
  problem_number : Option String := none
deriving DecidableEq, Repr

/-- Python truthiness of the optional fields dict: None and an empty dict
    are falsy. -/
def truthyFields : Option (List (String × String)) → Bool
  | none => false
  | some l => !l.isEmpty

/-- The POST of create_problem with its boundary handler (lines 78-103): a
    transport failure becomes a success=false response.  Payload values are
    Optional, since urgency and impact are placed in the payload without a
    presence check.  The second component is the list of payloads POSTed. -/
def create_problem_post (post : List (String × Option String) → PostOutcome)
    (data : List (String × Option String)) :
    ProblemResponse × List (List (String × Option String)) :=
  match post data with
  | PostOutcome.ok result =>
    (⟨true,
      "Problem created successfully. The sys_id of the problem is: "
        ++ result.sys_id.getD "",
      result.sys_id, result.number⟩, [data])
  | PostOutcome.transportError msg =>
    (⟨false, "Failed to create problem: " ++ msg, none, none⟩, [data])

/-- create_problem (lines 38-103): build the payload; when assigned_to is
    given and fails to resolve, return a descriptive failure without
    issuing the POST; extra fields are appended after the resolved
    assignment. -/
def create_problem (fetch : Fetch)
    (post : List (String × Option String) → PostOutcome)
    (params : CreateProblemParams) :
    ProblemResponse × List (List (String × Option String)) :=
  let data0 : List (String × Option String) :=
    [("short_description", some params.short_description),
     ("urgency", params.urgency), ("impact", params.impact)]
  let extra : List (String × Option String) :=
    if truthyFields params.fields then
      (params.fields.getD []).map (fun kv => (kv.1, some kv.2))
    else []
  if truthyStr params.assigned_to then
    let s := params.assigned_to.getD ""
    let user_id := (_resolve_user_id fetch s).1
    if truthyStr user_id then
      create_problem_post post
        (data0 ++ [("assigned_to", some (user_id.getD ""))] ++ extra)
    else
      (⟨false, "Could not resolve user: " ++ s, none, none⟩, [])
  else
    create_problem_post post (data0 ++ extra)

end record_tools

namespace hardware_ordering

/-- Parameters of submit_hardware_order. -/
structure SubmitHardwareOrderParams where
  catalog_item_id : String
  requested_for : String
  quantity : Int := 1
  justification : Option String := none
  priority : Option String := some "3"
  requested_delivery_date : Option String := none
  special_instructions : Option String := none
  cost_center : Option String := none
  project_code : Option String := none

/-- Outcome of the catalog-item GET: a transport failure or the result
    object, with none standing for the empty default dict of
    json().get("result", {}). -/
inductive GetItemOutcome where
  | transportError (msg : String)
  | ok (result : Option ResultObj)
deriving DecidableEq, Repr

/-- Result shape of submit_hardware_order, keeping the fields the claims
    are about. -/
structure OrderResult where
  success : Bool
  message : String
  request_id : Option String := none
  request_number : Option String := none
  item_id : Option String := none
deriving DecidableEq, Repr

/-- The sc_request payload built by submit_hardware_order (lines 221-234). -/
def submit_request_data (params : SubmitHardwareOrderParams)
    (catalog_item : ResultObj) : List (String × Option String) :=
  let item_name := catalog_item.name.getD "Hardware Item"
  [("requested_for", some params.requested_for),
   ("short_description", some ("Hardware Order: " ++ item_name)),
   ("description",
    some ("Order for " ++ toString params.quantity ++ "x " ++ item_name)),
   ("priority", params.priority), ("state", some "1"),
   ("special_instructions", some (params.special_instructions.getD ""))]
  ++ (if truthyStr params.justification then
        [("justification", params.justification)] else [])
  ++ (if truthyStr params.requested_delivery_date then
        [("delivery_date", params.requested_delivery_date)] else [])

/-- The sc_req_item payload built by submit_hardware_order (lines 251-264). -/
def submit_item_data (params : SubmitHardwareOrderParams)
    (catalog_item service_request : ResultObj) : List (String × Option String) :=
  [("request", service_request.sys_id),
   ("cat_item", some params.catalog_item_id),
   ("quantity", some (toString params.quantity)),
   ("price", some (catalog_item.price.getD "0")),
   ("recurring_price", some (catalog_item.recurring_price.getD "0")),
   ("state", some "1")]
  ++ (if truthyStr params.cost_center then
        [("cost_center", params.cost_center)] else [])
  ++ (if truthyStr params.project_code then
        [("project_code", params.project_code)] else [])

/-- submit_hardware_order (lines 187-295): GET the catalog item, POST the
    service request, POST the request item, all inside one try block whose
    except converts a transport failure from any of the three calls into a
    success=false result.  Payload values are Optional strings; the integer
    quantity is serialized with toString.  The second component is the
    transport error encountered, if any. -/
def submit_hardware_order
    (get_item : String → GetItemOutcome)
    (post_request : List (String × Option String) → PostOutcome)
    (post_item : List (String × Option String) → PostOutcome)
    (params : SubmitHardwareOrderParams) : OrderResult × Option String :=
  match get_item params.catalog_item_id with
  | GetItemOutcome.transportError msg =>
    (⟨false, "Failed to submit hardware order: " ++ msg, none, none, none⟩, some msg)
  | GetItemOutcome.ok none =>
    (⟨false, "Catalog item " ++ params.catalog_item_id ++ " not found",
      none, none, none⟩, none)
  | GetItemOutcome.ok (some catalog_item) =>
    match post_request (submit_request_data params catalog_item) with
    | PostOutcome.transportError msg =>
      (⟨false, "Failed to submit hardware order: " ++ msg, none, none, none⟩, some msg)
    | PostOutcome.ok service_request =>
      match post_item (submit_item_data params catalog_item service_request) with
      | PostOutcome.transportError msg =>
        (⟨false, "Failed to submit hardware order: " ++ msg, none, none, none⟩,
         some msg)
      | PostOutcome.ok request_item =>
        (⟨true,
          "Hardware order " ++ service_request.number.getD "" ++ " submitted successfully",
          service_request.sys_id, service_request.number, request_item.sys_id⟩, none)

end hardware_ordering
/-! ## Properties of the shared lookup loop -/

/-- The candidate queries of a field list. -/
def candidatesOf (table : String) (mkQuery : String → String)
    (fields : List String) : List TableQuery :=
  fields.map (fun field => ⟨table, mkQuery field, "1"⟩)

theorem tryFields_fst (fetch : Fetch) (table : String) (mkQuery : String → String)
    (fields : List String) :
    (tryFields fetch table mkQuery fields).1 =
      specFirstMatch fetch (candidatesOf table mkQuery fields) := by
  induction fields with
  | nil => rfl
  | cons f rest ih =>
    simp only [tryFields, candidatesOf, List.map, specFirstMatch]
    cases h : fetch ⟨table, mkQuery f, "1"⟩ with
    | transportError m => simpa [h, candidatesOf] using ih
    | ok rs => cases rs <;> simp [h, candidatesOf] <;> simpa [candidatesOf] using ih

theorem tryFields_snd (fetch : Fetch) (table : String) (mkQuery : String → String)
    (fields : List String) :
    (tryFields fetch table mkQuery fields).2 =
      specTrace fetch (candidatesOf table mkQuery fields) := by
  induction fields with
  | nil => rfl
  | cons f rest ih =>
    simp only [tryFields, candidatesOf, List.map, specTrace]
    cases h : fetch ⟨table, mkQuery f, "1"⟩ with
    | transportError m => simp [h]; simpa [candidatesOf] using ih
    | ok rs => cases rs <;> simp [h] <;> simpa [candidatesOf] using ih

/-- Every query issued by the loop carries sysparm_limit 1. -/
theorem tryFields_limit (fetch : Fetch) (table : String) (mkQuery : String → String)
    (fields : List String) :
    ∀ q ∈ (tryFields fetch table mkQuery fields).2, q.sysparm_limit = "1" := by
  induction fields with
  | nil => intro q hq; simp [tryFields] at hq
  | cons f rest ih =>
    intro q hq
    simp only [tryFields] at hq
    cases h : fetch ⟨table, mkQuery f, "1"⟩ with
    | transportError m =>
      rw [h] at hq
      simp at hq
      rcases hq with hq | hq
      · simp [hq]
      · exact ih q hq
    | ok rs =>
      cases rs with
      | nil =>
        rw [h] at hq
        simp at hq
        rcases hq with hq | hq
        · simp [hq]
        · exact ih q hq
      | cons r rs =>
        rw [h] at hq
        simp at hq
        simp [hq]

/-- When every record the backend returns carries a sys_id, a none outcome
    means every candidate was tried. -/
theorem tryFields_none (fetch : Fetch) (table : String) (mkQuery : String → String)
    (fields : List String)
    (hwf : ∀ q r rs, fetch q = FetchResult.ok (r :: rs) → (r.sys_id).isSome = true)
    (hnone : (tryFields fetch table mkQuery fields).1 = none) :
    (tryFields fetch table mkQuery fields).2 = candidatesOf table mkQuery fields := by
  induction fields with
  | nil => rfl
  | cons f rest ih =>
    simp only [tryFields, candidatesOf, List.map]
    simp only [tryFields] at hnone
    cases h : fetch ⟨table, mkQuery f, "1"⟩ with
    | transportError m =>
      rw [h] at hnone
      simp at hnone ⊢
      simpa [candidatesOf] using ih hnone
    | ok rs =>
      cases rs with
      | nil =>
        rw [h] at hnone
        simp at hnone ⊢
        simpa [candidatesOf] using ih hnone
      | cons r rs =>
        rw [h] at hnone
        simp at hnone
        have := hwf _ _ _ h
        rw [hnone] at this
        simp at this

/-- The issued trace is an initial segment of the candidate list. -/
theorem specTrace_take (fetch : Fetch) (cands : List TableQuery) :
    specTrace fetch cands = cands.take (specTrace fetch cands).length := by
  induction cands with
  | nil => rfl
  | cons q rest ih =>
    simp only [specTrace]
    cases h : fetch q with
    | transportError m => simp [List.take]; exact ih
    | ok rs => cases rs <;> simp [List.take] <;> exact ih

/-- When every candidate lookup is a non-match (errors or comes back
    empty), the spec-side resolver reports none after trying them all. -/
theorem specFirstMatch_none (fetch : Fetch) (cands : List TableQuery)
    (h : ∀ q ∈ cands, isNonMatch (fetch q) = true) :
    specFirstMatch fetch cands = none ∧ specTrace fetch cands = cands := by
  induction cands with
  | nil => exact ⟨rfl, rfl⟩
  | cons q rest ih =>
    have hq := h q (by simp)
    have hrest := ih (fun p hp => h p (by simp [hp]))
    cases hf : fetch q with
    | transportError m => simp [specFirstMatch, specTrace, hf, hrest.1, hrest.2]
    | ok rs =>
      cases rs with
      | nil => simp [specFirstMatch, specTrace, hf, hrest.1, hrest.2]
      | cons r rest2 => rw [hf] at hq; simp [isNonMatch] at hq

/-- The first query issued by the lookup loop is the first candidate,
    whatever the backend answers. -/
theorem tryFields_head (fetch : Fetch) (table : String) (mkQuery : String → String)
    (f : String) (rest : List String) :
    (tryFields fetch table mkQuery (f :: rest)).2.head? =
      some ⟨table, mkQuery f, "1"⟩ := by
  simp only [tryFields]
  cases hf : fetch ⟨table, mkQuery f, "1"⟩ with
  | transportError m => simp
  | ok rs => cases rs <;> simp

/-! ## Claim C1 -/

/-- An uppercase 32-character hexadecimal identifier. -/
def upperHexId : String := "AAAAAAAAAAAAAAAAAAAAAAAAAAAAAAAA"

/-- A lowercase 32-character hexadecimal identifier. -/
def lowerHexId : String := "0123456789abcdef0123456789abcdef"

/-- A mixed-case 32-character hexadecimal identifier. -/
def mixedHexId : String := "0123456789ABCDEF0123456789abcdef"

/-- Claim C1 is false as stated: an uppercase 32-character hexadecimal
    string is not returned unchanged by request_tools._resolve_user_id -
    against a backend with no matches the resolver issues two lookups and
    reports none instead of echoing the input. -/
theorem c1_counterexample :
    (request_tools._resolve_user_id emptyFetch upperHexId).2.length = 2 ∧
    (request_tools._resolve_user_id emptyFetch upperHexId).1 ≠ some upperHexId := by
  constructor
  · decide
  · decide

/-- Claim C1 (amended): a 32-character lowercase hexadecimal input is
    returned unchanged with zero lookups by all three resolvers; the
    record_tools user resolver also short-circuits on hexadecimal of either
    case, while the request_tools resolvers accept only lowercase. -/
theorem c1_claim (fetch : Fetch) (s : String) (hlen : s.length = 32) :
    ((∀ c ∈ s.toList, c ∈ lowercaseHexChars) →
      request_tools._resolve_user_id fetch s = (some s, []) ∧
      request_tools._resolve_catalog_item_id fetch s = (some s, []) ∧
      record_tools._resolve_user_id fetch s = (some s, [])) ∧
    ((∀ c ∈ s.toList, c ∈ mixedHexChars) →
      record_tools._resolve_user_id fetch s = (some s, [])) := by
  have hsub : ∀ c ∈ lowercaseHexChars, c ∈ mixedHexChars := by decide
  have hmix : (∀ c ∈ s.toList, c ∈ mixedHexChars) → isMixedSysId s = true := by
    intro h
    simp only [isMixedSysId, hlen, List.all_eq_true, Bool.and_eq_true, beq_iff_eq]
    exact ⟨trivial, fun c hc => List.elem_eq_true_of_mem (h c hc)⟩
  have hlow : (∀ c ∈ s.toList, c ∈ lowercaseHexChars) → isLowerSysId s = true := by
    intro h
    simp only [isLowerSysId, hlen, List.all_eq_true, Bool.and_eq_true, beq_iff_eq]
    exact ⟨trivial, fun c hc => List.elem_eq_true_of_mem (h c hc)⟩
  constructor
  · intro h
    have hl := hlow h
    have hm := hmix (fun c hc => hsub c (h c hc))
    refine ⟨?_, ?_, ?_⟩
    · simp [request_tools._resolve_user_id, hl]
    · simp [request_tools._resolve_catalog_item_id, hl]
    · simp [record_tools._resolve_user_id, hm]
  · intro h
    simp [record_tools._resolve_user_id, hmix h]

/-- Witness for c1_claim at concrete lowercase and mixed-case inputs. -/
theorem c1_witness :
    request_tools._resolve_user_id emptyFetch lowerHexId = (some lowerHexId, []) ∧
    record_tools._resolve_user_id emptyFetch mixedHexId = (some mixedHexId, []) := by
  constructor
  · exact ((c1_claim emptyFetch lowerHexId (by decide)).1 (by decide)).1
  · exact (c1_claim emptyFetch mixedHexId (by decide)).2 (by decide)

/-! ## Claim C2 -/

/-- Claim C2: below the fast path, user resolution tries user_name then
    email and catalog-item resolution tries name, sys_id, then a
    short_description LIKE match; each lookup is limited to one result, the
    outcome is the identifier of the first non-empty result, the issued
    queries are an initial segment of the candidate list, and none is
    returned only once every candidate has been tried. -/
theorem c2_claim (fetch : Fetch) (s : String)
    (hwf : ∀ q r rs, fetch q = FetchResult.ok (r :: rs) → (r.sys_id).isSome = true)
    (h1 : isLowerSysId s = false) (h2 : isMixedSysId s = false) :
    ((request_tools._resolve_user_id fetch s).1 =
        specFirstMatch fetch (userCandidates s) ∧
      (record_tools._resolve_user_id fetch s).1 =
        specFirstMatch fetch (userCandidates s) ∧
      (request_tools._resolve_catalog_item_id fetch s).1 =
        specFirstMatch fetch (catalogCandidates s)) ∧
    ((request_tools._resolve_user_id fetch s).1 = none →
      (request_tools._resolve_user_id fetch s).2 = userCandidates s) ∧
    ((record_tools._resolve_user_id fetch s).1 = none →
      (record_tools._resolve_user_id fetch s).2 = userCandidates s) ∧
    ((request_tools._resolve_catalog_item_id fetch s).1 = none →
      (request_tools._resolve_catalog_item_id fetch s).2 = catalogCandidates s) ∧
    (∀ q ∈ (request_tools._resolve_user_id fetch s).2, q.sysparm_limit = "1") ∧
    (∀ q ∈ (request_tools._resolve_catalog_item_id fetch s).2, q.sysparm_limit = "1") ∧
    ((request_tools._resolve_user_id fetch s).2 =
      (userCandidates s).take (request_tools._resolve_user_id fetch s).2.length) ∧
    ((request_tools._resolve_catalog_item_id fetch s).2 =
      (catalogCandidates s).take
        (request_tools._resolve_catalog_item_id fetch s).2.length) := by
  have eu : candidatesOf "sys_user" (fun field => field ++ "=" ++ s)
      ["user_name", "email"] = userCandidates s := rfl
  have ec : candidatesOf "sc_cat_item"
      (fun field =>
        if field != "short_description" then field ++ "=" ++ s
        else field ++ "LIKE" ++ s)
      ["name", "sys_id", "short_description"] = catalogCandidates s := rfl
  have hru : request_tools._resolve_user_id fetch s =
      tryFields fetch "sys_user" (fun field => field ++ "=" ++ s)
        ["user_name", "email"] := by
    simp [request_tools._resolve_user_id, h1]
  have hrr : record_tools._resolve_user_id fetch s =
      tryFields fetch "sys_user" (fun field => field ++ "=" ++ s)
        ["user_name", "email"] := by
    simp [record_tools._resolve_user_id, h2]
  have hrc : request_tools._resolve_catalog_item_id fetch s =
      tryFields fetch "sc_cat_item"
        (fun field =>
          if field != "short_description" then field ++ "=" ++ s
          else field ++ "LIKE" ++ s)
        ["name", "sys_id", "short_description"] := by
    simp [request_tools._resolve_catalog_item_id, h1]
  refine ⟨⟨?_, ?_, ?_⟩, ?_, ?_, ?_, ?_, ?_, ?_, ?_⟩
  · rw [hru, tryFields_fst, eu]
  · rw [hrr, tryFields_fst, eu]
  · rw [hrc, tryFields_fst, ec]
  · intro hn; rw [hru] at hn ⊢; rw [tryFields_none fetch _ _ _ hwf hn, eu]
  · intro hn; rw [hrr] at hn ⊢; rw [tryFields_none fetch _ _ _ hwf hn, eu]
  · intro hn; rw [hrc] at hn ⊢; rw [tryFields_none fetch _ _ _ hwf hn, ec]
  · rw [hru]; exact tryFields_limit fetch _ _ _
  · rw [hrc]; exact tryFields_limit fetch _ _ _
  · rw [hru, tryFields_snd, eu]; exact specTrace_take fetch _
  · rw [hrc, tryFields_snd, ec]; exact specTrace_take fetch _

/-- A backend where the user_name lookup for jdoe is empty and the email
    lookup returns one record. -/
def jdoeFetch : Fetch := fun q =>
  if q = ⟨"sys_user", "email=jdoe", "1"⟩ then FetchResult.ok [⟨some "abc123"⟩]
  else FetchResult.ok []

/-- Witness for c2_claim: resolving jdoe against jdoeFetch returns the
    identifier found by the email lookup. -/
theorem c2_witness :
    (request_tools._resolve_user_id jdoeFetch "jdoe").1 = some "abc123" := by
  have hwf : ∀ q r rs, jdoeFetch q = FetchResult.ok (r :: rs) →
      (r.sys_id).isSome = true := by
    intro q r rs h
    unfold jdoeFetch at h
    split at h
    · simp at h
      rw [← h.1]
      rfl
    · simp at h
  have h := ((c2_claim jdoeFetch "jdoe" hwf (by decide) (by decide)).1).1
  rw [h]
  decide

/-! ## Claim C3 -/

/-- Claim C3: a transport failure on one candidate field is treated as a
    non-match and resolution continues with the next candidate; when every
    candidate errors or comes back empty, the resolver returns none after
    trying them all instead of propagating the failure. -/
theorem c3_claim (fetch : Fetch) (s : String)
    (h1 : isLowerSysId s = false) (h2 : isMixedSysId s = false) :
    (∀ msg r rs,
      fetch ⟨"sys_user", "user_name=" ++ s, "1"⟩ = FetchResult.transportError msg →
      fetch ⟨"sys_user", "email=" ++ s, "1"⟩ = FetchResult.ok (r :: rs) →
      (request_tools._resolve_user_id fetch s).1 = r.sys_id ∧
      (record_tools._resolve_user_id fetch s).1 = r.sys_id) ∧
    ((∀ q ∈ userCandidates s, isNonMatch (fetch q) = true) →
      request_tools._resolve_user_id fetch s = (none, userCandidates s) ∧
      record_tools._resolve_user_id fetch s = (none, userCandidates s)) ∧
    ((∀ q ∈ catalogCandidates s, isNonMatch (fetch q) = true) →
      request_tools._resolve_catalog_item_id fetch s = (none, catalogCandidates s)) := by
  have eu : candidatesOf "sys_user" (fun field => field ++ "=" ++ s)
      ["user_name", "email"] = userCandidates s := rfl
  have ec : candidatesOf "sc_cat_item"
      (fun field =>
        if field != "short_description" then field ++ "=" ++ s
        else field ++ "LIKE" ++ s)
      ["name", "sys_id", "short_description"] = catalogCandidates s := rfl
  have hru : request_tools._resolve_user_id fetch s =
      tryFields fetch "sys_user" (fun field => field ++ "=" ++ s)
        ["user_name", "email"] := by
    simp [request_tools._resolve_user_id, h1]
  have hrr : record_tools._resolve_user_id fetch s =
      tryFields fetch "sys_user" (fun field => field ++ "=" ++ s)
        ["user_name", "email"] := by
    simp [record_tools._resolve_user_id, h2]
  have hrc : request_tools._resolve_catalog_item_id fetch s =
      tryFields fetch "sc_cat_item"
        (fun field =>
          if field != "short_description" then field ++ "=" ++ s
          else field ++ "LIKE" ++ s)
        ["name", "sys_id", "short_description"] := by
    simp [request_tools._resolve_catalog_item_id, h1]
  refine ⟨?_, ?_, ?_⟩
  · intro msg r rs ha hb
    have hfm : specFirstMatch fetch (userCandidates s) = r.sys_id := by
      simp [userCandidates, specFirstMatch, ha, hb]
    constructor
    · rw [hru, tryFields_fst, eu, hfm]
    · rw [hrr, tryFields_fst, eu, hfm]
  · intro h
    have hx := specFirstMatch_none fetch (userCandidates s) h
    constructor
    · rw [hru]
      have e1 := tryFields_fst fetch "sys_user" (fun field => field ++ "=" ++ s)
        ["user_name", "email"]
      have e2 := tryFields_snd fetch "sys_user" (fun field => field ++ "=" ++ s)
        ["user_name", "email"]
      rw [eu] at e1 e2
      rw [Prod.ext_iff]
      exact ⟨by rw [e1, hx.1], by rw [e2, hx.2]⟩
    · rw [hrr]
      have e1 := tryFields_fst fetch "sys_user" (fun field => field ++ "=" ++ s)
        ["user_name", "email"]
      have e2 := tryFields_snd fetch "sys_user" (fun field => field ++ "=" ++ s)
        ["user_name", "email"]
      rw [eu] at e1 e2
      rw [Prod.ext_iff]
      exact ⟨by rw [e1, hx.1], by rw [e2, hx.2]⟩
  · intro h
    have hx := specFirstMatch_none fetch (catalogCandidates s) h
    rw [hrc]
    have e1 := tryFields_fst fetch "sc_cat_item"
      (fun field =>
        if field != "short_description" then field ++ "=" ++ s
        else field ++ "LIKE" ++ s)
      ["name", "sys_id", "short_description"]
    have e2 := tryFields_snd fetch "sc_cat_item"
      (fun field =>
        if field != "short_description" then field ++ "=" ++ s
        else field ++ "LIKE" ++ s)
      ["name", "sys_id", "short_description"]
    rw [ec] at e1 e2
    rw [Prod.ext_iff]
    exact ⟨by rw [e1, hx.1], by rw [e2, hx.2]⟩

/-- A backend where the user_name lookup for jdoe raises a transport error
    and every other lookup returns one record. -/
def flakyFetch : Fetch := fun q =>
  if q = ⟨"sys_user", "user_name=jdoe", "1"⟩ then FetchResult.transportError "timeout"
  else FetchResult.ok [⟨some "u1"⟩]

/-- A backend where every lookup raises a transport error. -/
def downFetch : Fetch := fun _ => FetchResult.transportError "connection refused"

/-- Witness for c3_claim: an erroring first candidate falls through to
    the email lookup, and an entirely down backend yields none after both
    candidates were tried. -/
theorem c3_witness :
    (request_tools._resolve_user_id flakyFetch "jdoe").1 = some "u1" ∧
    request_tools._resolve_user_id downFetch "jdoe" = (none, userCandidates "jdoe") := by
  constructor
  · have h := ((c3_claim flakyFetch "jdoe" (by decide) (by decide)).1 "timeout"
      ⟨some "u1"⟩ [] (by decide) (by decide)).1
    simpa using h
  · exact ((c3_claim downFetch "jdoe" (by decide) (by decide)).2.1
      (fun q hq => rfl)).1

/-! ## Claim C7 -/

/-- Claim C7 is false as stated: resolving the empty string is not rejected
    before any network call - against a backend with no matches the
    request_tools user resolver issues the two candidate lookups (with the
    empty string spliced into each sysparm_query) and returns none. -/
theorem c7_counterexample :
    request_tools._resolve_user_id emptyFetch "" =
      (none, [⟨"sys_user", "user_name=", "1"⟩, ⟨"sys_user", "email=", "1"⟩]) ∧
    (request_tools._resolve_user_id emptyFetch "").2.length ≠ 0 := by
  constructor
  · decide
  · decide

/-- Claim C7 (amended): the resolvers perform no empty-input check; for the
    empty string both user resolvers proceed straight to the field lookups,
    issuing the user_name query first whatever the backend does, and when no
    candidate matches they return none after issuing both lookups. -/
theorem c7_claim (fetch : Fetch) :
    (request_tools._resolve_user_id fetch "").2.head? =
      some ⟨"sys_user", "user_name=", "1"⟩ ∧
    (record_tools._resolve_user_id fetch "").2.head? =
      some ⟨"sys_user", "user_name=", "1"⟩ ∧
    ((∀ q, isNonMatch (fetch q) = true) →
      request_tools._resolve_user_id fetch "" = (none, userCandidates "") ∧
      record_tools._resolve_user_id fetch "" = (none, userCandidates "")) := by
  refine ⟨?_, ?_, ?_⟩
  · have h : request_tools._resolve_user_id fetch "" =
        tryFields fetch "sys_user" (fun field => field ++ "=" ++ "")
          ["user_name", "email"] := by
      simp [request_tools._resolve_user_id, isLowerSysId]
    rw [h]
    exact tryFields_head fetch "sys_user" (fun field => field ++ "=" ++ "") "user_name"
      ["email"]
  · have h : record_tools._resolve_user_id fetch "" =
        tryFields fetch "sys_user" (fun field => field ++ "=" ++ "")
          ["user_name", "email"] := by
      simp [record_tools._resolve_user_id, isMixedSysId]
    rw [h]
    exact tryFields_head fetch "sys_user" (fun field => field ++ "=" ++ "") "user_name"
      ["email"]
  · intro h
    exact (c3_claim fetch "" (by decide) (by decide)).2.1
      (fun q hq => h q)

/-- Witness for c7_claim against a backend with no matches. -/
theorem c7_witness :
    request_tools._resolve_user_id emptyFetch "" = (none, userCandidates "") ∧
    record_tools._resolve_user_id emptyFetch "" = (none, userCandidates "") :=
  (c7_claim emptyFetch).2.2 (fun q => rfl)

/-! ## Claim C4 -/

/-- A resolver outcome where nothing resolves. -/
def noResolver : String → Option String := fun _ => none

/-- A backend whose list GET always returns an empty result list. -/
def emptyGet : Option String → ListOutcome := fun _ => ListOutcome.ok []

/-- Claim C4 is false as stated: when the assigned_to filter of
    list_hardware_assets fails to resolve, the operation does not report an
    error - it falls back to splicing the raw input into the sysparm_query
    of the GET it issues, and succeeds. -/
theorem c4_counterexample :
    (asset_tools.list_hardware_assets noResolver emptyGet
      ⟨10, 0, some "jdoe", none, none⟩).2 = some "assigned_to=jdoe" ∧
    (asset_tools.list_hardware_assets noResolver emptyGet
      ⟨10, 0, some "jdoe", none, none⟩).1.success = true := by
  constructor
  · decide
  · decide

/-- Claim C4 (amended): create_asset reports a descriptive error and issues
    no POST when its assigned_to input fails to resolve, but the listing
    operations list_hardware_assets and list_item_requests instead fall
    back to placing the raw unresolved input directly in the query filter
    they send. -/
theorem c4_claim :
    (∀ (resolve_user_id : String → Option String)
        (post : List (String × String) → PostOutcome)
        (p : asset_tools.CreateAssetParams),
      truthyStr p.assigned_to = true →
      truthyStr (resolve_user_id (p.assigned_to.getD "")) = false →
      asset_tools.create_asset resolve_user_id post p =
        (⟨false, "Could not resolve user: " ++ p.assigned_to.getD "", none, none⟩, [])) ∧
    (∀ (resolve_user_id : String → Option String)
        (p : asset_tools.ListHardwareAssetsParams),
      truthyStr p.assigned_to = true →
      truthyStr (resolve_user_id (p.assigned_to.getD "")) = false →
      (asset_tools.list_hardware_assets_query_parts resolve_user_id p).head? =
        some ("assigned_to=" ++ p.assigned_to.getD "")) ∧
    (∀ (fetch : Fetch) (p : request_tools.ListItemRequestsParams),
      truthyStr p.requested_for = true →
      truthyStr (request_tools._resolve_user_id fetch (p.requested_for.getD "")).1
        = false →
      (request_tools.list_item_requests_query_parts fetch p).head? =
        some ("requested_for=" ++ p.requested_for.getD "")) := by
  refine ⟨?_, ?_, ?_⟩
  · intro resolve_user_id post p hA hB
    simp [asset_tools.create_asset, hA, hB]
  · intro resolve_user_id p hA hB
    simp [asset_tools.list_hardware_assets_query_parts, hA, hB]
  · intro fetch p hA hB
    simp [request_tools.list_item_requests_query_parts, hA, hB]

/-- Witness for c4_claim at concrete inputs that fail to resolve. -/
theorem c4_witness :
    asset_tools.create_asset noResolver (fun _ => PostOutcome.ok ⟨none, none, none, none, none, none⟩)
      ⟨"tag1", "Laptop", none, none, some "jdoe", none, none, none, none, none, none,
        none, none, some "1", none, none⟩ =
      (⟨false, "Could not resolve user: jdoe", none, none⟩, []) ∧
    (asset_tools.list_hardware_assets_query_parts noResolver
      ⟨10, 0, some "jdoe", none, none⟩).head? = some "assigned_to=jdoe" ∧
    (request_tools.list_item_requests_query_parts emptyFetch
      ⟨10, 0, some "jdoe", none, none, none⟩).head? = some "requested_for=jdoe" := by
  refine ⟨?_, ?_, ?_⟩
  · exact c4_claim.1 noResolver (fun _ => PostOutcome.ok ⟨none, none, none, none, none, none⟩)
      ⟨"tag1", "Laptop", none, none, some "jdoe", none, none, none, none, none, none,
        none, none, some "1", none, none⟩ (by decide) (by decide)
  · exact c4_claim.2.1 noResolver ⟨10, 0, some "jdoe", none, none⟩ (by decide) (by decide)
  · exact c4_claim.2.2 emptyFetch ⟨10, 0, some "jdoe", none, none, none⟩
      (by decide) (by decide)

/-! ## Claim C5 -/

/-- Claim C5 is false as stated: for a search term x, list_hardware_assets
    emits the OR-group clause with an extra leading ^ separator, not
    exactly the joined clause the claim describes. -/
theorem c5_counterexample :
    asset_tools.list_hardware_assets_sysparm_query noResolver ⟨10, 0, none, none, some "x"⟩ =
      some "^asset_tagLIKEx^ORdisplay_nameLIKEx^ORserial_numberLIKEx^ORmodelLIKEx" ∧
    some "^asset_tagLIKEx^ORdisplay_nameLIKEx^ORserial_numberLIKEx^ORmodelLIKEx" ≠
      (some "asset_tagLIKEx^ORdisplay_nameLIKEx^ORserial_numberLIKEx^ORmodelLIKEx"
        : Option String) := by
  constructor
  · decide
  · decide

/-- Claim C5 (amended): list_knowledge_bases emits exactly the joined
    OR-group clause fieldALIKEterm^ORfieldBLIKEterm with fields in input
    order and no extra separators, while the asset OR-groups of
    list_hardware_assets and list_assets carry one extra leading ^ before
    their first field. -/
theorem c5_claim (q : String) (hq : q ≠ "") (resolve_user_id : String → Option String) :
    knowledge_base.list_knowledge_bases_sysparm_query ⟨10, 0, none, some q⟩ =
      some ("titleLIKE" ++ q ++ "^ORdescriptionLIKE" ++ q) ∧
    asset_tools.list_hardware_assets_sysparm_query resolve_user_id
        ⟨10, 0, none, none, some q⟩ =
      some ("^asset_tagLIKE" ++ q ++ "^ORdisplay_nameLIKE" ++ q ++ "^ORserial_numberLIKE"
        ++ q ++ "^ORmodelLIKE" ++ q) ∧
    asset_tools.list_assets_sysparm_query resolve_user_id
        ⟨100, 0, none, none, none, some q⟩ =
      some ("^asset_tagLIKE" ++ q ++ "^ORdisplay_nameLIKE" ++ q ++ "^ORserial_numberLIKE"
        ++ q ++ "^ORmodelLIKE" ++ q ++ "^ORshort_descriptionLIKE" ++ q) := by
  refine ⟨?_, ?_, ?_⟩
  · simp [knowledge_base.list_knowledge_bases_sysparm_query,
      knowledge_base.list_knowledge_bases_query_parts, truthyStr, hq]
    rfl
  · simp [asset_tools.list_hardware_assets_sysparm_query,
      asset_tools.list_hardware_assets_query_parts, truthyStr, hq]
    rfl
  · simp [asset_tools.list_assets_sysparm_query,
      asset_tools.list_assets_query_parts, truthyList, truthyStr, hq]
    rfl

/-- Witness for c5_claim at the concrete search term x. -/
theorem c5_witness :
    knowledge_base.list_knowledge_bases_sysparm_query ⟨10, 0, none, some "x"⟩ =
      some "titleLIKEx^ORdescriptionLIKEx" ∧
    asset_tools.list_assets_sysparm_query noResolver ⟨100, 0, none, none, none, some "x"⟩ =
      some "^asset_tagLIKEx^ORdisplay_nameLIKEx^ORserial_numberLIKEx^ORmodelLIKEx^ORshort_descriptionLIKEx" := by
  constructor
  · exact ((c5_claim "x" (by decide) noResolver).1).trans (by decide)
  · exact ((c5_claim "x" (by decide) noResolver).2.2).trans (by decide)

/-! ## Claim C6 -/

/-- Claim C6: with an exact location filter followed by a display-name LIKE
    filter (and no other filters), list_assets emits the two clauses in
    insertion order joined by the single ^ separator. -/
theorem c6_claim (loc nm : String) (hl : loc ≠ "") (hn : nm ≠ "")
    (resolve_user_id : String → Option String) :
    asset_tools.list_assets_sysparm_query resolve_user_id
        ⟨100, 0, none, some loc, some nm, none⟩ =
      some ("location=" ++ loc ++ "^" ++ ("display_nameLIKE" ++ nm)) := by
  simp [asset_tools.list_assets_sysparm_query, asset_tools.list_assets_query_parts,
    truthyList, truthyStr, hl, hn, String.intercalate]
  rfl

/-- Witness for c6_claim: the scenario from the claim, location NYC and
    display name laptop. -/
theorem c6_witness :
    asset_tools.list_assets_sysparm_query noResolver
        ⟨100, 0, none, some "NYC", some "laptop", none⟩ =
      some "location=NYC^display_nameLIKElaptop" :=
  (c6_claim "NYC" "laptop" (by decide) (by decide) noResolver).trans (by decide)

/-! ## Claim C8 -/

/-- A failing POST converts to a descriptive failure in create_asset. -/
theorem create_asset_post_err (post : List (String × String) → PostOutcome)
    (data : List (String × String)) (msg : String)
    (h : post data = PostOutcome.transportError msg) :
    asset_tools.create_asset_post post data =
      (⟨false, "Failed to create asset: " ++ msg, none, none⟩, [data]) := by
  simp [asset_tools.create_asset_post, h]

/-- The payload trace of create_asset_post is the one POSTed payload, so a
    transport error on any traced payload means the boundary handler ran. -/
theorem create_asset_post_mem (post : List (String × String) → PostOutcome)
    (d data : List (String × String)) (msg : String)
    (hmem : data ∈ (asset_tools.create_asset_post post d).2)
    (hpost : post data = PostOutcome.transportError msg) :
    (asset_tools.create_asset_post post d).1.success = false ∧
    (asset_tools.create_asset_post post d).1.message =
      "Failed to create asset: " ++ msg := by
  have hd : data = d := by
    unfold asset_tools.create_asset_post at hmem
    cases h : post d <;> rw [h] at hmem <;> simpa using hmem
  subst hd
  simp [asset_tools.create_asset_post, hpost]

/-- Same boundary fact for create_problem_post. -/
theorem create_problem_post_mem (post : List (String × Option String) → PostOutcome)
    (d data : List (String × Option String)) (msg : String)
    (hmem : data ∈ (record_tools.create_problem_post post d).2)
    (hpost : post data = PostOutcome.transportError msg) :
    (record_tools.create_problem_post post d).1.success = false ∧
    (record_tools.create_problem_post post d).1.message =
      "Failed to create problem: " ++ msg := by
  have hd : data = d := by
    unfold record_tools.create_problem_post at hmem
    cases h : post d <;> rw [h] at hmem <;> simpa using hmem
  subst hd
  simp [record_tools.create_problem_post, hpost]

/-- Claim C8: in each of the cited operations - create_asset,
    create_problem and submit_hardware_order - a transport failure raised
    by any of the operation's HTTP calls is caught at the operation
    boundary and converted into a success=false result whose message
    describes the failure; the embedded operations are total functions, so
    no exception reaches the caller. -/
theorem c8_claim :
    (∀ (resolve_user_id : String → Option String)
        (post : List (String × String) → PostOutcome)
        (p : asset_tools.CreateAssetParams) (msg : String)
        (data : List (String × String)),
      data ∈ (asset_tools.create_asset resolve_user_id post p).2 →
      post data = PostOutcome.transportError msg →
      (asset_tools.create_asset resolve_user_id post p).1.success = false ∧
      (asset_tools.create_asset resolve_user_id post p).1.message =
        "Failed to create asset: " ++ msg) ∧
    (∀ (fetch : Fetch) (post : List (String × Option String) → PostOutcome)
        (p : record_tools.CreateProblemParams) (msg : String)
        (data : List (String × Option String)),
      data ∈ (record_tools.create_problem fetch post p).2 →
      post data = PostOutcome.transportError msg →
      (record_tools.create_problem fetch post p).1.success = false ∧
      (record_tools.create_problem fetch post p).1.message =
        "Failed to create problem: " ++ msg) ∧
    (∀ (get_item : String → hardware_ordering.GetItemOutcome)
        (post_request post_item : List (String × Option String) → PostOutcome)
        (p : hardware_ordering.SubmitHardwareOrderParams) (msg : String),
      (hardware_ordering.submit_hardware_order get_item post_request post_item p).2 =
        some msg →
      (hardware_ordering.submit_hardware_order get_item post_request post_item p).1.success
        = false ∧
      (hardware_ordering.submit_hardware_order get_item post_request post_item p).1.message
        = "Failed to submit hardware order: " ++ msg) := by
  refine ⟨?_, ?_, ?_⟩
  · intro r post p msg data hmem hpost
    unfold asset_tools.create_asset at hmem ⊢
    cases hA : truthyStr p.assigned_to with
    | false =>
      simp only [hA, Bool.false_eq_true, if_false] at hmem ⊢
      exact create_asset_post_mem post _ data msg hmem hpost
    | true =>
      cases hB : truthyStr (r (p.assigned_to.getD "")) with
      | false =>
        simp only [hA, hB, Bool.false_eq_true, if_true, if_false] at hmem ⊢
        simp at hmem
      | true =>
        simp only [hA, hB, if_true] at hmem ⊢
        exact create_asset_post_mem post _ data msg hmem hpost
  · intro fetch post p msg data hmem hpost
    unfold record_tools.create_problem at hmem ⊢
    cases hA : truthyStr p.assigned_to with
    | false =>
      simp only [hA, Bool.false_eq_true, if_false] at hmem ⊢
      exact create_problem_post_mem post _ data msg hmem hpost
    | true =>
      cases hB : truthyStr (record_tools._resolve_user_id fetch (p.assigned_to.getD "")).1 with
      | false =>
        simp only [hA, hB, Bool.false_eq_true, if_true, if_false] at hmem ⊢
        simp at hmem
      | true =>
        simp only [hA, hB, if_true] at hmem ⊢
        exact create_problem_post_mem post _ data msg hmem hpost
  · intro get_item post_request post_item p msg h
    unfold hardware_ordering.submit_hardware_order at h ⊢
    split at h
    · simp_all
    · simp_all
    · split at h
      · simp_all
      · split at h
        · simp_all
        · simp_all

/-- A POST that always fails with a transport error. -/
def failPostStr : List (String × String) → PostOutcome :=
  fun _ => PostOutcome.transportError "boom"

/-- An Optional-valued POST that always fails with a transport error. -/
def failPostOpt : List (String × Option String) → PostOutcome :=
  fun _ => PostOutcome.transportError "boom"

/-- A catalog-item GET that returns one item. -/
def okGetItem : String → hardware_ordering.GetItemOutcome :=
  fun _ => hardware_ordering.GetItemOutcome.ok
    (some ⟨none, none, none, some "MacBook", some "999", none⟩)

/-- A POST that succeeds with a request record. -/
def okPostOpt : List (String × Option String) → PostOutcome :=
  fun _ => PostOutcome.ok ⟨some "req1", some "REQ001", none, none, none, none⟩

/-- Concrete create_asset parameters with no assignment. -/
def caParams : asset_tools.CreateAssetParams :=
  ⟨"t1", "Laptop", none, none, none, none, none, none, none, none, none, none, none,
    some "1", none, none⟩

/-- Concrete create_problem parameters with no assignment. -/
def cpParams : record_tools.CreateProblemParams :=
  ⟨"printer on fire", some "3", some "3", none, none⟩

/-- Concrete submit_hardware_order parameters. -/
def shoParams : hardware_ordering.SubmitHardwareOrderParams :=
  ⟨"item1", "user1", 1, none, some "3", none, none, none, none⟩

/-- Witness for c8_claim: a failing POST yields the uniform failure in
    each of the three operations (for submit_hardware_order the failure is
    on its third call, after the first two succeed). -/
theorem c8_witness :
    (asset_tools.create_asset noResolver failPostStr caParams).1.success = false ∧
    (record_tools.create_problem emptyFetch failPostOpt cpParams).1.success = false ∧
    (hardware_ordering.submit_hardware_order okGetItem okPostOpt failPostOpt
      shoParams).1.message = "Failed to submit hardware order: boom" := by
  refine ⟨?_, ?_, ?_⟩
  · exact (c8_claim.1 noResolver failPostStr caParams "boom"
      [("asset_tag", "t1"), ("display_name", "Laptop"), ("state", "1")]
      (by decide) rfl).1
  · exact (c8_claim.2.1 emptyFetch failPostOpt cpParams "boom"
      [("short_description", some "printer on fire"), ("urgency", some "3"),
        ("impact", some "3")]
      (by decide) rfl).1
  · exact (c8_claim.2.2 okGetItem okPostOpt failPostOpt shoParams "boom"
      (by decide)).2

/-! ## Claim C9 -/

/-- Claim C9: query construction is a pure function of its inputs - for a
    fixed resolution outcome, equal parameter values give byte-identical
    sysparm_query strings in list_assets and list_knowledge_bases; the
    knowledge-base builder consults no backend at all. -/
theorem c9_claim (resolve_user_id : String → Option String)
    (p q : asset_tools.ListAssetsParams) (h : p = q)
    (p2 q2 : knowledge_base.ListKnowledgeBasesParams) (h2 : p2 = q2) :
    asset_tools.list_assets_sysparm_query resolve_user_id p =
      asset_tools.list_assets_sysparm_query resolve_user_id q ∧
    knowledge_base.list_knowledge_bases_sysparm_query p2 =
      knowledge_base.list_knowledge_bases_sysparm_query q2 := by
  subst h
  subst h2
  exact ⟨rfl, rfl⟩

/-- Witness for c9_claim at a concrete parameter set. -/
theorem c9_witness :
    asset_tools.list_assets_sysparm_query noResolver
        ⟨100, 0, none, some "NYC", none, none⟩ =
      asset_tools.list_assets_sysparm_query noResolver
        ⟨100, 0, none, some "NYC", none, none⟩ ∧
    knowledge_base.list_knowledge_bases_sysparm_query ⟨10, 0, some true, none⟩ =
      knowledge_base.list_knowledge_bases_sysparm_query ⟨10, 0, some true, none⟩ :=
  c9_claim noResolver ⟨100, 0, none, some "NYC", none, none⟩
    ⟨100, 0, none, some "NYC", none, none⟩ rfl
    ⟨10, 0, some true, none⟩ ⟨10, 0, some true, none⟩ rfl

/-! ## Claim C10 -/

/-- Claim C10: when the assigned_to list of list_assets is non-empty, the
    assigned_toIN clause is emitted first and carries exactly the entries
    that resolved - unresolved entries are silently dropped; when no entry
    resolves the clause degenerates to the bare assigned_toIN, and the
    operation still proceeds to a successful GET rather than failing. -/
theorem c10_claim (resolve_user_id : String → Option String)
    (get : Option String → ListOutcome) (p : asset_tools.ListAssetsParams)
    (users : List String) (hu : p.assigned_to = some users) (hne : users ≠ []) :
    ((asset_tools.list_assets_query_parts resolve_user_id p).head? =
      some ("assigned_toIN" ++
        String.intercalate "," (asset_tools.resolvedUserIds resolve_user_id users))) ∧
    ((∀ u ∈ users, truthyStr (resolve_user_id u) = false) →
      (asset_tools.list_assets_query_parts resolve_user_id p).head? =
        some "assigned_toIN") ∧
    (∀ rs, get (asset_tools.list_assets_sysparm_query resolve_user_id p) =
        ListOutcome.ok rs →
      (asset_tools.list_assets resolve_user_id get p).1.success = true) := by
  have htr : truthyList (some users) = true := by
    cases users with
    | nil => simp at hne
    | cons a l => rfl
  have hhead : (asset_tools.list_assets_query_parts resolve_user_id p).head? =
      some ("assigned_toIN" ++
        String.intercalate "," (asset_tools.resolvedUserIds resolve_user_id users)) := by
    simp [asset_tools.list_assets_query_parts, hu, htr]
  refine ⟨hhead, ?_, ?_⟩
  · intro hall
    have hids : asset_tools.resolvedUserIds resolve_user_id users = [] := by
      simp only [asset_tools.resolvedUserIds, List.filterMap_eq_nil_iff]
      intro u hu2
      simp [hall u hu2]
    rw [hhead, hids]
    rfl
  · intro rs hget
    simp [asset_tools.list_assets, hget]

/-- Witness for c10_claim: a single entry that fails to resolve still
    yields the bare assigned_toIN clause and a successful listing. -/
theorem c10_witness :
    (asset_tools.list_assets_query_parts noResolver
      ⟨100, 0, some ["ghost"], none, none, none⟩).head? = some "assigned_toIN" ∧
    (asset_tools.list_assets noResolver emptyGet
      ⟨100, 0, some ["ghost"], none, none, none⟩).1.success = true := by
  constructor
  · exact (c10_claim noResolver emptyGet ⟨100, 0, some ["ghost"], none, none, none⟩
      ["ghost"] rfl (by decide)).2.1 (by decide)
  · exact (c10_claim noResolver emptyGet ⟨100, 0, some ["ghost"], none, none, none⟩
      ["ghost"] rfl (by decide)).2.2 [] rfl
